import Mathlib

/-!
Verification of the bird-observation subsystem: activity scorer, curve
builder, observation normalizer, deduplicator/ranker, and the GET /birds
aggregation flow (cache + radius widening + weather query parsing).

Numbers follow the JavaScript source: scores are integers, weather values
are rationals (finite JS floats), and an hour parsed from a timestamp can
be null, NaN, or an integer.
-/

/-- Weather snapshot `{temp_c, rain_probability, wind_speed_ms, cloud_percent}`
as consumed by the scorer (all four fields present and finite). -/
structure Weather where
  temp_c : Rat
  rain_probability : Rat
  wind_speed_ms : Rat
  cloud_percent : Rat
deriving DecidableEq, Repr

/-- Result of scoring one hour: `{score, label}` (backend/bird-activity.js). -/
structure ScoreResult where
  score : Int
  label : String
deriving DecidableEq, Repr

/-- `scoreHour` from backend/bird-activity.js (server side): base 50,
hour-of-day bands, rain and wind penalties with conditional label
overwrites, season and temperature adjustments, overcast-but-dry bonus,
final clamp to [0, 100]. -/
def scoreHour (hour : Int) (weather : Weather) (month : Int) : ScoreResult :=
  let score : Int := 50
  let label : String := "Not much about"
  let (score, label) :=
    if 5 ≤ hour ∧ hour ≤ 7 then (score + 30, "Best time to spot birds")
    else if hour = 8 then (score + 20, "Great for spotting")
    else if 9 ≤ hour ∧ hour ≤ 11 then (score + 10, "Good chance of sightings")
    else if 12 ≤ hour ∧ hour ≤ 14 then (score - 5, "Fewer birds around")
    else if 15 ≤ hour ∧ hour ≤ 16 then (score + 10, "Birds picking up again")
    else if 17 ≤ hour ∧ hour ≤ 18 then (score + 20, "Lots of activity")
    else if hour = 19 then (score + 5, "Last chance today")
    else (score - 20, "Not much about")
  let (score, label) :=
    if weather.rain_probability > 60 then
      let score := score - 20
      (score, if score < 40 then "Rain keeping birds hidden" else label)
    else if weather.rain_probability > 30 then (score - 10, label)
    else (score, label)
  let (score, label) :=
    if weather.wind_speed_ms > 10 then
      let score := score - 15
      (score, if score < 40 then "Too windy for most birds" else label)
    else if weather.wind_speed_ms > 6 then (score - 5, label)
    else (score, label)
  let score :=
    if month = 2 ∨ month = 3 ∨ month = 4 then score + 15
    else if month = 8 ∨ month = 9 then score + 10
    else if month = 11 ∨ month = 0 ∨ month = 1 then score - 5
    else score
  let score :=
    if 10 ≤ weather.temp_c ∧ weather.temp_c ≤ 22 then score + 5 else score
  let score := if weather.temp_c < 0 then score - 10 else score
  let score := if weather.temp_c > 30 then score - 10 else score
  let score :=
    if weather.cloud_percent > 30 ∧ weather.cloud_percent < 70 ∧
        weather.rain_probability < 20 then score + 5
    else score
  let score := max 0 (min 100 score)
  ⟨score, label⟩

/-- `scoreHour` from the client mirror (frontend bird module, "CLIENT-SIDE
ACTIVITY MODEL" section): the browser copy of the scorer. -/
def clientScoreHour (hour : Int) (weather : Weather) (month : Int) : ScoreResult :=
  let score : Int := 50
  let label : String := "Not much about"
  let (score, label) :=
    if 5 ≤ hour ∧ hour ≤ 7 then (score + 30, "Best time to spot birds")
    else if hour = 8 then (score + 20, "Great for spotting")
    else if 9 ≤ hour ∧ hour ≤ 11 then (score + 10, "Good chance of sightings")
    else if 12 ≤ hour ∧ hour ≤ 14 then (score - 5, "Fewer birds around")
    else if 15 ≤ hour ∧ hour ≤ 16 then (score + 10, "Birds picking up again")
    else if 17 ≤ hour ∧ hour ≤ 18 then (score + 20, "Lots of activity")
    else if hour = 19 then (score + 5, "Last chance today")
    else (score - 20, "Not much about")
  let (score, label) :=
    if weather.rain_probability > 60 then
      let score := score - 20
      (score, if score < 40 then "Rain keeping birds hidden" else label)
    else if weather.rain_probability > 30 then (score - 10, label)
    else (score, label)
  let (score, label) :=
    if weather.wind_speed_ms > 10 then
      let score := score - 15
      (score, if score < 40 then "Too windy for most birds" else label)
    else if weather.wind_speed_ms > 6 then (score - 5, label)
    else (score, label)
  let score :=
    if month = 2 ∨ month = 3 ∨ month = 4 then score + 15
    else if month = 8 ∨ month = 9 then score + 10
    else if month = 11 ∨ month = 0 ∨ month = 1 then score - 5
    else score
  let score :=
    if 10 ≤ weather.temp_c ∧ weather.temp_c ≤ 22 then score + 5 else score
  let score := if weather.temp_c < 0 then score - 10 else score
  let score := if weather.temp_c > 30 then score - 10 else score
  let score :=
    if weather.cloud_percent > 30 ∧ weather.cloud_percent < 70 ∧
        weather.rain_probability < 20 then score + 5
    else score
  let score := max 0 (min 100 score)
  ⟨score, label⟩

/-- One point of the 24-hour activity curve: `{hour, score, label}`. -/
structure ActivityPoint where
  hour : Int
  score : Int
  label : String
deriving DecidableEq, Repr

/-- A dawn or dusk peak: `{hour, score}`. -/
structure Peak where
  hour : Int
  score : Int
deriving DecidableEq, Repr

/-- The current-hour point with its derived level string. -/
structure CurrentPoint where
  hour : Int
  score : Int
  label : String
  level : String
deriving DecidableEq, Repr

/-- Result of `calculateActivityCurve`:
`{curve, current, dawn_peak, dusk_peak}`. -/
structure ActivityCurve where
  curve : List ActivityPoint
  current : CurrentPoint
  dawn_peak : Peak
  dusk_peak : Peak
deriving DecidableEq, Repr

/-- Weather argument of `calculateActivityCurve` before the `??` defaults
are applied: each field may be absent (null/undefined). -/
structure WeatherInput where
  temp_c : Option Rat
  rain_probability : Option Rat
  wind_speed_ms : Option Rat
  cloud_percent : Option Rat
deriving DecidableEq, Repr

/-- The `w = { field ?? default }` normalization at the top of
`calculateActivityCurve` (defaults 10, 0, 0, 50). -/
def normWeather (weather : WeatherInput) : Weather :=
  ⟨weather.temp_c.getD 10, weather.rain_probability.getD 0,
    weather.wind_speed_ms.getD 0, weather.cloud_percent.getD 50⟩

/-- Body of the `for (let h = 0; h < 24; h++)` loop of
`calculateActivityCurve`: push the scored point and update the dawn
(5..9) and dusk (15..19) running peaks on strict excess. -/
def curveStep (w : Weather) (month : Int)
    (acc : List ActivityPoint × Peak × Peak) (h : Nat) :
    List ActivityPoint × Peak × Peak :=
  let r := scoreHour (Int.ofNat h) w month
  let curve := acc.1 ++ [⟨Int.ofNat h, r.score, r.label⟩]
  let dawnPeak :=
    if 5 ≤ h ∧ h ≤ 9 ∧ r.score > acc.2.1.score then (⟨Int.ofNat h, r.score⟩ : Peak)
    else acc.2.1
  let duskPeak :=
    if 15 ≤ h ∧ h ≤ 19 ∧ r.score > acc.2.2.score then (⟨Int.ofNat h, r.score⟩ : Peak)
    else acc.2.2
  (curve, dawnPeak, duskPeak)

/-- `calculateActivityCurve` from backend/bird-activity.js. The source
reads the month and current hour from `new Date()`; they are explicit
parameters here. Dawn peak is seeded at `{hour 6, score 0}`, dusk at
`{hour 17, score 0}`; `current` is the curve point at `currentHour` with
its level classification. -/
def calculateActivityCurve (weather : WeatherInput) (month : Int)
    (currentHour : Nat) : ActivityCurve :=
  let w := normWeather weather
  let res := (List.range 24).foldl (curveStep w month) ([], ⟨6, 0⟩, ⟨17, 0⟩)
  let curve := res.1
  let dawnPeak := res.2.1
  let duskPeak := res.2.2
  let current := curve.getD currentHour ⟨0, 0, ""⟩
  let level : String :=
    if current.score ≥ 70 then "high"
    else if current.score ≥ 40 then "moderate" else "low"
  ⟨curve, ⟨current.hour, current.score, current.label, level⟩, dawnPeak, duskPeak⟩

/-- Modelled from the spec: the peak search "is a strict running maximum
seeded at that default" — fold over the window hours, replacing the peak
only when an hour's score strictly exceeds the one held. -/
def strictRunningMax (seed : Peak) (hours : List Nat) (score : Nat → Int) : Peak :=
  hours.foldl
    (fun p h => if score h > p.score then (⟨Int.ofNat h, score h⟩ : Peak) else p)
    seed

/-- Value of a list of decimal digit characters. -/
def digitsToNat (ds : List Char) : Nat :=
  ds.foldl (fun a c => a * 10 + (c.toNat - 48)) 0

/-- JavaScript whitespace characters relevant to number parsing. -/
def jsWhitespace (c : Char) : Bool :=
  c == ' ' || c == '\t' || c == '\n' || c == '\r'

/-- Split a character list on every occurrence of a separator, keeping
empty segments: the behavior of JavaScript `String.prototype.split` with a
single-character separator. -/
def splitOnChar (sep : Char) : List Char → List (List Char)
  | [] => [[]]
  | c :: rest =>
    if c == sep then [] :: splitOnChar sep rest
    else
      match splitOnChar sep rest with
      | [] => [[c]]
      | h :: t => (c :: h) :: t

/-- Model of JavaScript `parseInt(s, 10)`: skip leading whitespace, read an
optional sign, then the longest prefix of decimal digits; no digits means
NaN, modelled as `none`. -/
def jsParseInt (s : String) : Option Int :=
  let core : Int → List Char → Option Int := fun sign cs =>
    let ds := cs.takeWhile Char.isDigit
    if ds.isEmpty then none else some (sign * (digitsToNat ds : Int))
  match s.toList.dropWhile jsWhitespace with
  | '-' :: rest => core (-1) rest
  | '+' :: rest => core 1 rest
  | cs => core 1 cs

/-- The tokenized form of a finite JavaScript float literal: sign, mantissa
digits read as one integer, number of fraction digits, decimal exponent. -/
structure JsFloatParts where
  sign : Int
  mantissa : Nat
  fracLen : Nat
  exp : Int
deriving DecidableEq, Repr

/-- Tokenizing stage of the JavaScript `parseFloat` model: skip leading
whitespace, read an optional sign, integer digits, an optional fraction and
an optional exponent; if no mantissa digits were read the result is NaN,
modelled as `none`. (The `Infinity` spellings are outside this model.) -/
def jsParseFloatParts (s : String) : Option JsFloatParts :=
  let cs0 := s.toList.dropWhile jsWhitespace
  let signAndRest : Int × List Char :=
    match cs0 with
    | '-' :: rest => (-1, rest)
    | '+' :: rest => (1, rest)
    | _ => (1, cs0)
  let sign := signAndRest.1
  let cs := signAndRest.2
  let intDs := cs.takeWhile Char.isDigit
  let cs1 := cs.drop intDs.length
  let fracAndRest : List Char × List Char :=
    match cs1 with
    | '.' :: rest => (rest.takeWhile Char.isDigit,
        rest.drop (rest.takeWhile Char.isDigit).length)
    | _ => ([], cs1)
  let fracDs := fracAndRest.1
  let cs2 := fracAndRest.2
  if intDs.isEmpty ∧ fracDs.isEmpty then none
  else
    let exp : Int :=
      match cs2 with
      | c :: rest =>
        if c == 'e' || c == 'E' then
          let esignAndRest : Int × List Char :=
            match rest with
            | '-' :: r => (-1, r)
            | '+' :: r => (1, r)
            | _ => (1, rest)
          let eds := esignAndRest.2.takeWhile Char.isDigit
          if eds.isEmpty then 0 else esignAndRest.1 * (digitsToNat eds : Int)
        else 0
      | [] => 0
    some ⟨sign, digitsToNat (intDs ++ fracDs), fracDs.length, exp⟩

/-- Numeric value of tokenized float parts:
`sign * mantissa / 10 ^ fracLen * 10 ^ exp`. -/
def jsFloatValue (p : JsFloatParts) : Rat :=
  let scale : Rat :=
    if 0 ≤ p.exp then (10 : Rat) ^ p.exp.toNat else 1 / (10 : Rat) ^ (-p.exp).toNat
  (p.sign : Rat) * ((p.mantissa : Rat) / (10 : Rat) ^ p.fracLen) * scale

/-- Model of JavaScript `parseFloat` on finite decimal inputs; `none` is
NaN. -/
def jsParseFloat (s : String) : Option Rat :=
  (jsParseFloatParts s).map jsFloatValue

/-- A JavaScript hour value as produced by the normalizer: null, NaN, or an
integer. -/
inductive JSHour
  | null
  | nan
  | val (n : Int)
deriving DecidableEq, Repr

/-- Raw eBird observation record as consumed by `transformObservations`
(fields may be absent upstream). -/
structure RawObs where
  comName : String
  sciName : String
  howMany : Option Int
  obsDt : Option String
  locName : String
  speciesCode : String
deriving DecidableEq, Repr

/-- Transformed observation in our schema, as produced by
`transformObservations`. -/
structure TransObs where
  common_name : String
  scientific_name : String
  how_many : Int
  observed_at : Option String
  obs_hour : JSHour
  location_name : String
  species_code : String
deriving DecidableEq, Repr

/-- The obs_hour computation of `transformObservations`:
`timePart = obs.obsDt?.split(' ')[1]` and
`obsHour = timePart ? parseInt(timePart.split(':')[0], 10) : null`.
A missing or empty (falsy) `timePart` yields null; otherwise the text
before the first colon goes through `parseInt`, whose NaN is preserved. -/
def parseObsHour (obsDt : Option String) : JSHour :=
  match obsDt with
  | none => .null
  | some s =>
    match (splitOnChar ' ' s.toList)[1]? with
    | none => .null
    | some t =>
      if t.isEmpty then .null
      else
        match jsParseInt (String.mk ((splitOnChar ':' t).headD [])) with
        | none => .nan
        | some n => .val n

/-- `transformObservations` from backend/providers/ebird.js: map each raw
record to the canonical schema; `how_many` falls back to 1 when `howMany`
is falsy (absent or 0). -/
def transformObservations (rawObs : List RawObs) : List TransObs :=
  rawObs.map fun obs =>
    { common_name := obs.comName
      scientific_name := obs.sciName
      how_many :=
        match obs.howMany with
        | some n => if n = 0 then 1 else n
        | none => 1
      observed_at := obs.obsDt
      obs_hour := parseObsHour obs.obsDt
      location_name := obs.locName
      species_code := obs.speciesCode }

/-- `hourDistance` from backend/providers/ebird.js: circular hour distance
`min(|h1 - h2|, 24 - |h1 - h2|)`. -/
def hourDistance (h1 h2 : Int) : Int :=
  let diff := |h1 - h2|
  min diff (24 - diff)

/-- Canonical observation shape consumed by `deduplicateAndScore`:
`obs_hour` is an integer hour or null, per the canonical schema. -/
structure Observation where
  common_name : String
  scientific_name : String
  how_many : Int
  observed_at : Option String
  obs_hour : Option Int
  location_name : String
  species_code : String
deriving DecidableEq, Repr

/-- Distance of an observation to the reference hour, as computed in both
the dedup replacement rule and the relevance sort of
`deduplicateAndScore`: a null `obs_hour` counts as 24. -/
def obsDist (locationHour : Int) (o : Observation) : Int :=
  match o.obs_hour with
  | some h => hourDistance h locationHour
  | none => 24

/-- Body of the dedup loop of `deduplicateAndScore`. The insertion-ordered
JavaScript `Map` is modelled as a list of observations with pairwise
distinct species codes: `set` of a new key appends, `set` of an existing
key replaces in place. A candidate replaces the stored observation only
when the reference hour and the candidate's `obs_hour` are both non-null
and the candidate's circular distance is strictly smaller. -/
def updateByCode (locationHour : Option Int) (m : List Observation)
    (s : Observation) : List Observation :=
  match m.find? (fun o => o.species_code == s.species_code) with
  | none => m ++ [s]
  | some existing =>
    match locationHour, s.obs_hour with
    | some lh, some sh =>
      let existingDist := obsDist lh existing
      let newDist := hourDistance sh lh
      if newDist < existingDist then
        m.map (fun o => if o.species_code == s.species_code then s else o)
      else m
    | _, _ => m

/-- Order-faithful model of `new Date(observed_at).getTime()` on the
provider's "YYYY-MM-DD HH:mm" timestamps: the field tuple (year, month,
day, hour, minute) packed so that chronological order is preserved;
missing or malformed timestamps map to 0. -/
def dateKey (observed_at : Option String) : Int :=
  match observed_at with
  | none => 0
  | some s =>
    match splitOnChar ' ' s.toList with
    | [d, t] =>
      match splitOnChar '-' d, splitOnChar ':' t with
      | [y, mo, da], [h, mi] =>
        ((((digitsToNat y * 12 + digitsToNat mo) * 32 + digitsToNat da) * 24
            + digitsToNat h) * 60 + digitsToNat mi : Int)
      | _, _ => 0
    | _ => 0

/-- `deduplicateAndScore` from backend/providers/ebird.js: fold the input
into the insertion-ordered `byCode` map, then sort the surviving values —
ascending by circular distance to `locationHour` when it is non-null (the
JavaScript stable numeric-comparator sort), else by `observed_at`
descending (most recent first). -/
def deduplicateAndScore (species : List Observation)
    (locationHour : Option Int) : List Observation :=
  let unique := species.foldl (updateByCode locationHour) []
  match locationHour with
  | some lh =>
    unique.mergeSort (fun a b => decide (obsDist lh a ≤ obsDist lh b))
  | none =>
    unique.mergeSort (fun a b => decide (dateKey b.observed_at ≤ dateKey a.observed_at))

/-- The `{observations, radius}` pair cached by the /birds handler. -/
structure CachedBirds where
  observations : List TransObs
  radius : Int
deriving DecidableEq, Repr

/-- `new Set(observations.map(s => s.species_code)).size` from the /birds
handler: number of distinct species codes. -/
def distinctSpeciesCount (observations : List TransObs) : Nat :=
  ((observations.map (fun s => s.species_code)).dedup).length

/-- The cache-resolution step of the GET /birds handler: on a cache hit the
cached `{observations, radius}` pair is used as is (no fetch happens); on a
miss the tight (3 km) fetch runs, and if its observations have fewer than 5
distinct species codes a second fetch at 10 km is used with radius 10,
otherwise the tight result is kept with radius 3. A failed fetch (the
upstream `UpstreamUnavailable` error) propagates out of the handler. The
two fetches are passed as their results. -/
def fetchBirdsPayload (cached : Option CachedBirds)
    (fetchTight fetchWide : Except String (List RawObs)) :
    Except String CachedBirds :=
  match cached with
  | some c => .ok c
  | none =>
    match fetchTight with
    | .error e => .error e
    | .ok rawObs =>
      let observations := transformObservations rawObs
      if distinctSpeciesCount observations < 5 then
        match fetchWide with
        | .error e => .error e
        | .ok rawObs2 => .ok ⟨transformObservations rawObs2, 10⟩
      else .ok ⟨observations, 3⟩

/-- One weather query parameter of the /birds handler:
`parseFloat(req.query.x) || default`. An absent parameter parses to NaN;
NaN and 0 are falsy, so both fall back to the default. -/
def birdsWeatherParam (q : Option String) (default : Rat) : Rat :=
  match q.map jsParseFloat with
  | none => default
  | some none => default
  | some (some x) => if x = 0 then default else x

/-- The weather object the /birds handler passes to
`calculateActivityCurve`, built from the four query parameters with
defaults 10, 0, 0, 50. -/
def birdsActivityWeather (qtemp qrain qwind qcloud : Option String) : Weather :=
  ⟨birdsWeatherParam qtemp 10, birdsWeatherParam qrain 0,
    birdsWeatherParam qwind 0, birdsWeatherParam qcloud 50⟩

/-- Proof-side invariant of the dedup fold: after processing `seen`, the
map `m` is key-unique with each entry the first minimal-distance
observation of its species code among `seen`. -/
def DedupInv (lh : Int) (m seen : List Observation) : Prop :=
  (∀ o ∈ m, m.find? (fun x => x.species_code == o.species_code) = some o) ∧
  (∀ x ∈ seen, ∃ o ∈ m, o.species_code = x.species_code) ∧
  (∀ o ∈ m, o ∈ seen ∧ ∀ x ∈ seen, x.species_code = o.species_code →
      obsDist lh o ≤ obsDist lh x) ∧
  (∀ o ∈ m, seen.find?
      (fun x => x.species_code == o.species_code &&
        decide (obsDist lh x ≤ obsDist lh o)) = some o)

/-- C1: for every hour in 0..23, every weather snapshot and every month in
0..11, the server-side scorer and the client mirror return identical
results (same numeric score and same label string). -/
theorem server_client_scoreHour_agree (hour : Int) (weather : Weather)
    (month : Int) (hh0 : 0 ≤ hour) (hh1 : hour ≤ 23)
    (hm0 : 0 ≤ month) (hm1 : month ≤ 11) :
    scoreHour hour weather month = clientScoreHour hour weather month := rfl

/-- Witness for C1 at hour 6, default weather, month 3. -/
theorem server_client_scoreHour_agree_witness :
    (0 : Int) ≤ 6 ∧ (6 : Int) ≤ 23 ∧ (0 : Int) ≤ 3 ∧ (3 : Int) ≤ 11 ∧
      scoreHour 6 ⟨10, 0, 0, 50⟩ 3 = clientScoreHour 6 ⟨10, 0, 0, 50⟩ 3 :=
  ⟨by decide, by decide, by decide, by decide,
    server_client_scoreHour_agree 6 ⟨10, 0, 0, 50⟩ 3
      (by decide) (by decide) (by decide) (by decide)⟩

/-- C7: `scoreHour(22, {temp_c 10, rain 70, wind 12, cloud 50}, 0)` clamps
the negative raw sum to 0 and the wind clause, running after the rain
clause, overwrites the rain label with "Too windy for most birds". -/
theorem scoreHour_night_rain_wind_winter :
    scoreHour 22 ⟨10, 70, 12, 50⟩ 0 = ⟨0, "Too windy for most birds"⟩ := by
  decide

/-- C9: for every weather input, month and current hour, the dawn (5..9)
and dusk (15..19) peaks of `calculateActivityCurve` are strict running
maxima seeded at `{hour 6, score 0}` and `{hour 17, score 0}` respectively,
updated only when an hour's score strictly exceeds the current maximum (so
a window whose every hour scores 0 reports the seeded default peak). -/
theorem activityCurve_peaks_running_max (weather : WeatherInput)
    (month : Int) (currentHour : Nat) :
    (calculateActivityCurve weather month currentHour).dawn_peak
        = strictRunningMax ⟨6, 0⟩ [5, 6, 7, 8, 9]
            (fun h => (scoreHour (Int.ofNat h) (normWeather weather) month).score)
      ∧ (calculateActivityCurve weather month currentHour).dusk_peak
        = strictRunningMax ⟨17, 0⟩ [15, 16, 17, 18, 19]
            (fun h => (scoreHour (Int.ofNat h) (normWeather weather) month).score) := by
  have h24 : List.range 24 =
      [0, 1, 2, 3, 4, 5, 6, 7, 8, 9, 10, 11, 12, 13, 14, 15, 16, 17, 18,
        19, 20, 21, 22, 23] := rfl
  constructor <;>
    simp [calculateActivityCurve, curveStep, strictRunningMax, h24]

theorem countP_updateByCode (lh : Option Int) (m : List Observation)
    (s : Observation)
    (hu : ∀ c, m.countP (fun o => o.species_code == c) ≤ 1) (c : String) :
    (updateByCode lh m s).countP (fun o => o.species_code == c) =
      if s.species_code == c then 1
      else m.countP (fun o => o.species_code == c) := by
  unfold updateByCode
  cases hf : m.find? (fun o => o.species_code == s.species_code) with
  | none =>
    rw [List.find?_eq_none] at hf
    by_cases hc : (s.species_code == c) = true
    · have hcc : s.species_code = c := by simpa using hc
      have h0 : m.countP (fun o => o.species_code == c) = 0 := by
        rw [List.countP_eq_zero]
        intro a ha
        have := hf a ha
        simpa [hcc] using this
      simp [List.countP_append, h0, hc, List.countP_cons]
    · simp [List.countP_append, List.countP_cons, hc]
  | some e =>
    have he : e ∈ m := List.mem_of_find?_eq_some hf
    have hescode : e.species_code = s.species_code := by
      have := List.find?_some hf
      simpa using this
    have hmap : (m.map (fun o =>
        if o.species_code == s.species_code then s else o)).countP
          (fun o => o.species_code == c) =
        m.countP (fun o => o.species_code == c) := by
      rw [List.countP_map]
      apply List.countP_congr
      intro a _
      by_cases hx : (a.species_code == s.species_code) = true
      · have hax : a.species_code = s.species_code := by simpa using hx
        simp [Function.comp, hx, hax]
      · simp [Function.comp, hx]
    have hrhs : ∀ (M : List Observation),
        M.countP (fun o => o.species_code == c) =
          m.countP (fun o => o.species_code == c) →
        M.countP (fun o => o.species_code == c) =
          if s.species_code == c then 1
          else m.countP (fun o => o.species_code == c) := by
      intro M hM
      by_cases hc : (s.species_code == c) = true
      · rw [hM, if_pos hc]
        have hcc : s.species_code = c := by simpa using hc
        have hpos : 0 < m.countP (fun o => o.species_code == c) := by
          rw [List.countP_pos_iff]
          exact ⟨e, he, by simp [hescode, hcc]⟩
        exact le_antisymm (hu c) hpos
      · rw [hM, if_neg hc]
    rcases lh with _ | lhv
    · exact hrhs m rfl
    · cases hso : s.obs_hour with
      | none => exact hrhs m rfl
      | some sh =>
        dsimp only
        by_cases hlt : hourDistance sh lhv < obsDist lhv e
        · rw [if_pos hlt]
          exact hrhs _ hmap
        · rw [if_neg hlt]
          exact hrhs m rfl

theorem uniqueCodes_updateByCode (lh : Option Int) (m : List Observation)
    (s : Observation)
    (hu : ∀ c, m.countP (fun o => o.species_code == c) ≤ 1) (c : String) :
    (updateByCode lh m s).countP (fun o => o.species_code == c) ≤ 1 := by
  rw [countP_updateByCode lh m s hu c]
  by_cases hc : (s.species_code == c) = true
  · rw [if_pos hc]
  · rw [if_neg hc]; exact hu c

theorem countP_foldl_updateByCode (lh : Option Int) (l : List Observation) :
    ∀ (m : List Observation),
      (∀ c, m.countP (fun o => o.species_code == c) ≤ 1) →
      ∀ c, (l.foldl (updateByCode lh) m).countP (fun o => o.species_code == c) =
        if l.any (fun o => o.species_code == c) then 1
        else m.countP (fun o => o.species_code == c) := by
  induction l with
  | nil => intro m _ c; simp
  | cons s t ih =>
    intro m hu c
    rw [List.foldl_cons,
      ih (updateByCode lh m s) (fun c => uniqueCodes_updateByCode lh m s hu c) c,
      countP_updateByCode lh m s hu c, List.any_cons]
    by_cases ht : (t.any fun o => o.species_code == c) = true
    · simp [ht]
    · by_cases hs : (s.species_code == c) = true
      · simp [ht, hs]
      · simp [ht, hs]

/-- C3: for every input list and reference hour, the output of
`deduplicateAndScore` has exactly one entry per species code occurring in
the input and no entry whose species code is absent from the input. -/
theorem dedup_unique_species (species : List Observation)
    (locationHour : Option Int) (c : String) :
    (deduplicateAndScore species locationHour).countP
        (fun o => o.species_code == c) =
      if species.any (fun o => o.species_code == c) then 1 else 0 := by
  unfold deduplicateAndScore
  have hfold := countP_foldl_updateByCode locationHour species []
    (fun c => by simp) c
  cases locationHour with
  | none =>
    rw [(List.mergeSort_perm _ _).countP_eq]
    simpa using hfold
  | some lh =>
    rw [(List.mergeSort_perm _ _).countP_eq]
    simpa using hfold

theorem foldl_none_find (l : List Observation) :
    ∀ (m : List Observation),
      (∀ o ∈ m, m.find? (fun x => x.species_code == o.species_code) = some o) →
      ∀ o ∈ l.foldl (updateByCode none) m,
        m.find? (fun x => x.species_code == o.species_code) = some o ∨
          (m.find? (fun x => x.species_code == o.species_code) = none ∧
            l.find? (fun x => x.species_code == o.species_code) = some o) := by
  induction l with
  | nil =>
    intro m hsf o ho
    exact Or.inl (hsf o ho)
  | cons s t ih =>
    intro m hsf o ho
    rw [List.foldl_cons] at ho
    cases hf : m.find? (fun x => x.species_code == s.species_code) with
    | some e =>
      have hm' : updateByCode none m s = m := by
        unfold updateByCode
        rw [hf]
      rw [hm'] at ho
      rcases ih m hsf o ho with hl | ⟨hn, hfind⟩
      · exact Or.inl hl
      · refine Or.inr ⟨hn, ?_⟩
        have hso : (s.species_code == o.species_code) = false := by
          by_contra hx
          have hx' : (s.species_code == o.species_code) = true := by
            revert hx
            cases s.species_code == o.species_code <;> simp
          have heq : s.species_code = o.species_code := by simpa using hx'
          rw [heq] at hf
          rw [hn] at hf
          exact Option.noConfusion hf
        rw [List.find?_cons, hso]
        exact hfind
    | none =>
      have hm' : updateByCode none m s = m ++ [s] := by
        unfold updateByCode
        rw [hf]
      have hsf' : ∀ o ∈ m ++ [s],
          (m ++ [s]).find? (fun x => x.species_code == o.species_code) = some o := by
        intro o' ho'
        rcases List.mem_append.mp ho' with hin | hin
        · rw [List.find?_append, hsf o' hin]
          rfl
        · have : o' = s := by simpa using hin
          subst this
          rw [List.find?_append, hf]
          simp [List.find?_cons]
      rw [hm'] at ho
      rcases ih (m ++ [s]) hsf' o ho with hl | ⟨hn, hfind⟩
      · rw [List.find?_append] at hl
        cases hm : m.find? (fun x => x.species_code == o.species_code) with
        | some e' =>
          rw [hm] at hl
          exact Or.inl (by simpa using hl)
        | none =>
          rw [hm] at hl
          have hos : o = s := by
            have := List.mem_of_find?_eq_some (by simpa using hl : ([s].find?
              (fun x => x.species_code == o.species_code)) = some o)
            simpa using this
          subst hos
          refine Or.inr ⟨rfl, ?_⟩
          rw [List.find?_cons]
          simp
      · rw [List.find?_append] at hn
        cases hm : m.find? (fun x => x.species_code == o.species_code) with
        | some e' => rw [hm] at hn; exact Option.noConfusion hn
        | none =>
          rw [hm] at hn
          have hsfalse : (s.species_code == o.species_code) = false := by
            cases hx : (s.species_code == o.species_code)
            · rfl
            · exfalso
              have hfs : [s].find? (fun x => x.species_code == o.species_code) = some s := by
                simp [List.find?_cons, hx]
              rw [hfs] at hn
              exact Option.noConfusion hn
          refine Or.inr ⟨rfl, ?_⟩
          rw [List.find?_cons]
          simp only [hsfalse]
          exact hfind

/-- C4: with a null reference hour, every entry surviving
`deduplicateAndScore` is the first observation bearing its species code in
input order, regardless of timestamps. -/
theorem dedup_null_reference_keeps_first (species : List Observation)
    (o : Observation) (hmem : o ∈ deduplicateAndScore species none) :
    species.find? (fun x => x.species_code == o.species_code) = some o := by
  unfold deduplicateAndScore at hmem
  have hperm := List.mergeSort_perm (species.foldl (updateByCode none) [])
    (fun a b => decide (dateKey b.observed_at ≤ dateKey a.observed_at))
  have hfold : o ∈ species.foldl (updateByCode none) [] := hperm.mem_iff.mp hmem
  rcases foldl_none_find species [] (by intro o' h; simp at h) o hfold with hl | ⟨_, h⟩
  · simp at hl
  · exact h

theorem find?_ext {α : Type} (p q : α → Bool) (l : List α)
    (h : ∀ a ∈ l, p a = q a) : l.find? p = l.find? q := by
  induction l with
  | nil => rfl
  | cons a t ih =>
    rw [List.find?_cons, List.find?_cons, h a (by simp)]
    cases hq : q a with
    | true => rfl
    | false => exact ih (fun a ha => h a (by simp [ha]))

theorem obsDist_le_24 (lh : Int) (o : Observation) : obsDist lh o ≤ 24 := by
  cases ho : o.obs_hour with
  | none => simp [obsDist, ho]
  | some h =>
    have h0 : (0 : Int) ≤ |h - lh| := abs_nonneg _
    have h1 : min |h - lh| (24 - |h - lh|) ≤ 24 - |h - lh| := min_le_right _ _
    simp only [obsDist, ho, hourDistance]
    omega

theorem updateByCode_some_eq (lh : Int) (m : List Observation)
    (s : Observation) :
    updateByCode (some lh) m s =
      match m.find? (fun o => o.species_code == s.species_code) with
      | none => m ++ [s]
      | some e =>
        if obsDist lh s < obsDist lh e then
          m.map (fun o => if o.species_code == s.species_code then s else o)
        else m := by
  unfold updateByCode
  cases hf : m.find? (fun o => o.species_code == s.species_code) with
  | none => rfl
  | some e =>
    cases hso : s.obs_hour with
    | none =>
      have hns : ¬ (obsDist lh s < obsDist lh e) := by
        have h1 : obsDist lh s = 24 := by simp [obsDist, hso]
        have h2 := obsDist_le_24 lh e
        omega
      dsimp only
      rw [if_neg hns]
    | some sh =>
      have h1 : obsDist lh s = hourDistance sh lh := by simp [obsDist, hso]
      dsimp only
      rw [h1]

theorem dedupInv_step (lh : Int) (m seen : List Observation) (s : Observation)
    (h : DedupInv lh m seen) :
    DedupInv lh (updateByCode (some lh) m s) (seen ++ [s]) := by
  obtain ⟨hU, hC, hM, hF⟩ := h
  rw [updateByCode_some_eq]
  cases hf : m.find? (fun o => o.species_code == s.species_code) with
  | none =>
    dsimp only
    have hnone : ∀ y ∈ m, (y.species_code == s.species_code) = false := by
      intro y hy
      have hy2 := List.find?_eq_none.mp hf y hy
      cases hx : (y.species_code == s.species_code)
      · rfl
      · exact absurd hx hy2
    have hnocode : ∀ x, x.species_code = s.species_code → ¬ x ∈ seen := by
      intro x hxc hxin
      obtain ⟨o', ho', hoc'⟩ := hC x hxin
      have hne := hnone o' ho'
      rw [beq_eq_false_iff_ne] at hne
      exact hne (by rw [hoc', hxc])
    refine ⟨?_, ?_, ?_, ?_⟩
    · intro o ho
      rcases List.mem_append.mp ho with hin | hin
      · rw [List.find?_append, hU o hin]
        rfl
      · have hos : o = s := by simpa using hin
        have hf' : m.find? (fun x => x.species_code == o.species_code) = none := by
          simp only [hos]
          exact hf
        rw [List.find?_append, hf']
        simp [List.find?_singleton, hos]
    · intro x hx
      rcases List.mem_append.mp hx with hin | hin
      · obtain ⟨o, ho, hoc⟩ := hC x hin
        exact ⟨o, List.mem_append_left _ ho, hoc⟩
      · have hxs : x = s := by simpa using hin
        exact ⟨s, List.mem_append_right _ (by simp), by rw [hxs]⟩
    · intro o ho
      rcases List.mem_append.mp ho with hin | hin
      · obtain ⟨hseen, hmin⟩ := hM o hin
        refine ⟨List.mem_append_left _ hseen, ?_⟩
        intro x hx hxc
        rcases List.mem_append.mp hx with hxin | hxin
        · exact hmin x hxin hxc
        · have hxs : x = s := by simpa using hxin
          exfalso
          have hne := hnone o hin
          rw [beq_eq_false_iff_ne] at hne
          rw [hxs] at hxc
          exact hne hxc.symm
      · have hos : o = s := by simpa using hin
        refine ⟨List.mem_append_right _ (by simp [hos]), ?_⟩
        intro x hx hxc
        rcases List.mem_append.mp hx with hxin | hxin
        · exact absurd hxin (hnocode x (by rw [hxc, hos]))
        · have hxs : x = s := by simpa using hxin
          simp [hos, hxs]
    · intro o ho
      rcases List.mem_append.mp ho with hin | hin
      · rw [List.find?_append, hF o hin]
        rfl
      · have hos : o = s := by simpa using hin
        have hseen_none : seen.find?
            (fun x => x.species_code == o.species_code &&
              decide (obsDist lh x ≤ obsDist lh o)) = none := by
          rw [List.find?_eq_none]
          intro x hx
          simp only [Bool.and_eq_true, beq_iff_eq, decide_eq_true_eq, not_and]
          intro hxc _
          exact absurd hx (hnocode x (by rw [hxc, hos]))
        rw [List.find?_append, hseen_none]
        simp [List.find?_singleton, hos]
  | some e =>
    have he : e ∈ m := List.mem_of_find?_eq_some hf
    have hecode : e.species_code = s.species_code := by
      have := List.find?_some hf
      simpa using this
    have huniq : ∀ o ∈ m, o.species_code = s.species_code → o = e := by
      intro o ho hoc
      have h1 := hU o ho
      simp only [hoc] at h1
      rw [hf] at h1
      exact (Option.some.inj h1).symm
    dsimp only
    by_cases hlt : obsDist lh s < obsDist lh e
    · rw [if_pos hlt]
      have hreplcode : ∀ o : Observation,
          ((if o.species_code == s.species_code then s else o).species_code) =
            o.species_code := by
        intro o
        by_cases hx : (o.species_code == s.species_code) = true
        · rw [if_pos hx]
          have hoc : o.species_code = s.species_code := by simpa using hx
          rw [hoc]
        · rw [if_neg hx]
      have hfindmap : ∀ (c : String),
          (m.map (fun o => if o.species_code == s.species_code then s else o)).find?
              (fun x => x.species_code == c) =
            (m.find? (fun x => x.species_code == c)).map
              (fun o => if o.species_code == s.species_code then s else o) := by
        intro c
        rw [List.find?_map]
        congr 1
        apply find?_ext
        intro a _
        simp only [Function.comp]
        rw [hreplcode a]
      refine ⟨?_, ?_, ?_, ?_⟩
      · intro o' ho'
        obtain ⟨o, ho, hoo⟩ := List.mem_map.mp ho'
        by_cases hx : (o.species_code == s.species_code) = true
        · have hro : o' = s := by
            rw [← hoo, if_pos hx]
          have hre : (if e.species_code == s.species_code then s else e) = s :=
            if_pos (by simpa using hecode)
          rw [hro, hfindmap, hf]
          exact congrArg some hre
        · have hro : o' = o := by
            rw [← hoo, if_neg hx]
          rw [hro, hfindmap, hU o ho]
          exact congrArg some (if_neg hx)
      · intro x hx
        rcases List.mem_append.mp hx with hxin | hxin
        · obtain ⟨o, ho, hoc⟩ := hC x hxin
          refine ⟨_, List.mem_map_of_mem _ ho, ?_⟩
          rw [hreplcode o, hoc]
        · have hxs : x = s := by simpa using hxin
          refine ⟨_, List.mem_map_of_mem _ he, ?_⟩
          rw [hreplcode e, hecode, hxs]
      · intro o' ho'
        obtain ⟨o, ho, hoo⟩ := List.mem_map.mp ho'
        by_cases hx : (o.species_code == s.species_code) = true
        · have hro : o' = s := by
            rw [← hoo, if_pos hx]
          refine ⟨List.mem_append_right _ (by simp [hro]), ?_⟩
          intro x hxmem hxc
          rcases List.mem_append.mp hxmem with hxin | hxin
          · have hxe : x.species_code = e.species_code := by
              rw [hxc, hro, hecode]
            have hMe := (hM e he).2 x hxin hxe
            rw [hro]
            exact le_of_lt (lt_of_lt_of_le hlt hMe)
          · have hxs : x = s := by simpa using hxin
            simp [hro, hxs]
        · have hro : o' = o := by
            rw [← hoo, if_neg hx]
          obtain ⟨hseen, hmin⟩ := hM o ho
          refine ⟨List.mem_append_left _ (by rw [hro]; exact hseen), ?_⟩
          intro x hxmem hxc
          rcases List.mem_append.mp hxmem with hxin | hxin
          · rw [hro]
            exact hmin x hxin (by rw [hxc, hro])
          · have hxs : x = s := by simpa using hxin
            exfalso
            have hoc : o.species_code = s.species_code := by
              rw [← hro, ← hxc, hxs]
            exact hx (by simp [hoc])
      · intro o' ho'
        obtain ⟨o, ho, hoo⟩ := List.mem_map.mp ho'
        by_cases hx : (o.species_code == s.species_code) = true
        · have hro : o' = s := by
            rw [← hoo, if_pos hx]
          have hseen_none : seen.find?
              (fun x => x.species_code == o'.species_code &&
                decide (obsDist lh x ≤ obsDist lh o')) = none := by
            rw [List.find?_eq_none]
            intro x hxmem
            simp only [Bool.and_eq_true, beq_iff_eq, decide_eq_true_eq, not_and]
            intro hxc hxd
            have hxe : x.species_code = e.species_code := by
              rw [hxc, hro, hecode]
            have hMe := (hM e he).2 x hxmem hxe
            rw [hro] at hxd
            exact absurd (lt_of_lt_of_le hlt (le_trans hMe hxd)) (lt_irrefl _)
          rw [List.find?_append, hseen_none]
          simp [List.find?_singleton, hro]
        · have hro : o' = o := by
            rw [← hoo, if_neg hx]
          rw [hro, List.find?_append, hF o ho]
          rfl
    · rw [if_neg hlt]
      refine ⟨hU, ?_, ?_, ?_⟩
      · intro x hx
        rcases List.mem_append.mp hx with hxin | hxin
        · exact hC x hxin
        · have hxs : x = s := by simpa using hxin
          exact ⟨e, he, by rw [hecode, hxs]⟩
      · intro o ho
        obtain ⟨hseen, hmin⟩ := hM o ho
        refine ⟨List.mem_append_left _ hseen, ?_⟩
        intro x hxmem hxc
        rcases List.mem_append.mp hxmem with hxin | hxin
        · exact hmin x hxin hxc
        · have hxs : x = s := by simpa using hxin
          have hoc : o.species_code = s.species_code := by
            rw [← hxc, hxs]
          have hoe : o = e := huniq o ho hoc
          rw [hoe, hxs]
          exact not_lt.mp hlt
      · intro o ho
        rw [List.find?_append, hF o ho]
        rfl

theorem dedupInv_nil (lh : Int) : DedupInv lh [] [] := by
  refine ⟨?_, ?_, ?_, ?_⟩ <;> intro o ho <;> simp at ho

theorem dedupInv_foldl (lh : Int) (l : List Observation) :
    ∀ (m seen : List Observation), DedupInv lh m seen →
      DedupInv lh (l.foldl (updateByCode (some lh)) m) (seen ++ l) := by
  induction l with
  | nil =>
    intro m seen h
    simpa using h
  | cons s t ih =>
    intro m seen h
    rw [List.foldl_cons]
    have h2 := ih (updateByCode (some lh) m s) (seen ++ [s]) (dedupInv_step lh m seen s h)
    rw [List.append_assoc] at h2
    simpa using h2

/-- C5: with a non-null reference hour, every entry surviving
`deduplicateAndScore` comes from the input, minimizes the circular hour
distance `obsDist` (null hours counting as 24) among all input
observations of its species code, and is the first such minimizer (ties
keep the earlier observation). -/
theorem dedup_reference_hour_keeps_closest (species : List Observation)
    (lh : Int) (o : Observation)
    (hmem : o ∈ deduplicateAndScore species (some lh)) :
    o ∈ species ∧
      (∀ x ∈ species, x.species_code = o.species_code →
        obsDist lh o ≤ obsDist lh x) ∧
      species.find? (fun x => x.species_code == o.species_code &&
        decide (obsDist lh x ≤ obsDist lh o)) = some o := by
  unfold deduplicateAndScore at hmem
  have hperm := List.mergeSort_perm (species.foldl (updateByCode (some lh)) [])
    (fun a b => decide (obsDist lh a ≤ obsDist lh b))
  have hfold : o ∈ species.foldl (updateByCode (some lh)) [] :=
    hperm.mem_iff.mp hmem
  have hinv := dedupInv_foldl lh species [] [] (dedupInv_nil lh)
  simp only [List.nil_append] at hinv
  obtain ⟨_, _, hM, hF⟩ := hinv
  obtain ⟨hseen, hmin⟩ := hM o hfold
  exact ⟨hseen, hmin, hF o hfold⟩

/-- Evaluation of `deduplicateAndScore` on the two-observation witness
input with a null reference hour. -/
theorem dedup_null_witness_eval :
    deduplicateAndScore
      [⟨"Robin", "Erithacus rubecula", 1, some "2024-01-01 05:00", some 5,
          "Park", "eurrob1"⟩,
        ⟨"Robin", "Erithacus rubecula", 2, some "2024-01-05 09:00", some 9,
          "Park", "eurrob1"⟩] none =
      [⟨"Robin", "Erithacus rubecula", 1, some "2024-01-01 05:00", some 5,
          "Park", "eurrob1"⟩] := by
  have h1 : ([⟨"Robin", "Erithacus rubecula", 1, some "2024-01-01 05:00", some 5,
      "Park", "eurrob1"⟩,
      ⟨"Robin", "Erithacus rubecula", 2, some "2024-01-05 09:00", some 9,
        "Park", "eurrob1"⟩] : List Observation).foldl (updateByCode none) [] =
      [⟨"Robin", "Erithacus rubecula", 1, some "2024-01-01 05:00", some 5,
        "Park", "eurrob1"⟩] := by decide
  unfold deduplicateAndScore
  dsimp only
  rw [h1, List.mergeSort_singleton]

/-- Witness for C4 on two same-species observations where the second is
more recent: the first-in-order one survives. -/
theorem dedup_null_reference_keeps_first_witness :
    (⟨"Robin", "Erithacus rubecula", 1, some "2024-01-01 05:00", some 5,
        "Park", "eurrob1"⟩ : Observation) ∈
      deduplicateAndScore
        [⟨"Robin", "Erithacus rubecula", 1, some "2024-01-01 05:00", some 5,
            "Park", "eurrob1"⟩,
          ⟨"Robin", "Erithacus rubecula", 2, some "2024-01-05 09:00", some 9,
            "Park", "eurrob1"⟩] none ∧
    ([⟨"Robin", "Erithacus rubecula", 1, some "2024-01-01 05:00", some 5,
        "Park", "eurrob1"⟩,
      ⟨"Robin", "Erithacus rubecula", 2, some "2024-01-05 09:00", some 9,
        "Park", "eurrob1"⟩] : List Observation).find?
      (fun x => x.species_code ==
        (⟨"Robin", "Erithacus rubecula", 1, some "2024-01-01 05:00", some 5,
          "Park", "eurrob1"⟩ : Observation).species_code) =
      some ⟨"Robin", "Erithacus rubecula", 1, some "2024-01-01 05:00", some 5,
        "Park", "eurrob1"⟩ := by
  have hmem : (⟨"Robin", "Erithacus rubecula", 1, some "2024-01-01 05:00", some 5,
      "Park", "eurrob1"⟩ : Observation) ∈
      deduplicateAndScore
        [⟨"Robin", "Erithacus rubecula", 1, some "2024-01-01 05:00", some 5,
            "Park", "eurrob1"⟩,
          ⟨"Robin", "Erithacus rubecula", 2, some "2024-01-05 09:00", some 9,
            "Park", "eurrob1"⟩] none := by
    rw [dedup_null_witness_eval]
    simp
  exact ⟨hmem, dedup_null_reference_keeps_first _ _ hmem⟩

/-- Evaluation of `deduplicateAndScore` on the two-observation witness
input with reference hour 5. -/
theorem dedup_hour_witness_eval :
    deduplicateAndScore
      [⟨"Robin", "Erithacus rubecula", 1, some "2024-01-01 03:00", some 3,
          "Park", "eurrob1"⟩,
        ⟨"Robin", "Erithacus rubecula", 2, some "2024-01-05 05:00", some 5,
          "Park", "eurrob1"⟩] (some 5) =
      [⟨"Robin", "Erithacus rubecula", 2, some "2024-01-05 05:00", some 5,
          "Park", "eurrob1"⟩] := by
  have h1 : ([⟨"Robin", "Erithacus rubecula", 1, some "2024-01-01 03:00", some 3,
      "Park", "eurrob1"⟩,
      ⟨"Robin", "Erithacus rubecula", 2, some "2024-01-05 05:00", some 5,
        "Park", "eurrob1"⟩] : List Observation).foldl (updateByCode (some 5)) [] =
      [⟨"Robin", "Erithacus rubecula", 2, some "2024-01-05 05:00", some 5,
        "Park", "eurrob1"⟩] := by decide
  unfold deduplicateAndScore
  dsimp only
  rw [h1, List.mergeSort_singleton]

/-- Witness for C5 on two same-species observations: the one whose hour
matches the reference hour survives and is distance-minimal. -/
theorem dedup_reference_hour_keeps_closest_witness :
    (⟨"Robin", "Erithacus rubecula", 2, some "2024-01-05 05:00", some 5,
        "Park", "eurrob1"⟩ : Observation) ∈
      deduplicateAndScore
        [⟨"Robin", "Erithacus rubecula", 1, some "2024-01-01 03:00", some 3,
            "Park", "eurrob1"⟩,
          ⟨"Robin", "Erithacus rubecula", 2, some "2024-01-05 05:00", some 5,
            "Park", "eurrob1"⟩] (some 5) ∧
    (∀ x ∈ ([⟨"Robin", "Erithacus rubecula", 1, some "2024-01-01 03:00", some 3,
          "Park", "eurrob1"⟩,
        ⟨"Robin", "Erithacus rubecula", 2, some "2024-01-05 05:00", some 5,
          "Park", "eurrob1"⟩] : List Observation),
      x.species_code =
        (⟨"Robin", "Erithacus rubecula", 2, some "2024-01-05 05:00", some 5,
          "Park", "eurrob1"⟩ : Observation).species_code →
      obsDist 5 (⟨"Robin", "Erithacus rubecula", 2, some "2024-01-05 05:00",
        some 5, "Park", "eurrob1"⟩ : Observation) ≤ obsDist 5 x) := by
  have hmem : (⟨"Robin", "Erithacus rubecula", 2, some "2024-01-05 05:00", some 5,
      "Park", "eurrob1"⟩ : Observation) ∈
      deduplicateAndScore
        [⟨"Robin", "Erithacus rubecula", 1, some "2024-01-01 03:00", some 3,
            "Park", "eurrob1"⟩,
          ⟨"Robin", "Erithacus rubecula", 2, some "2024-01-05 05:00", some 5,
            "Park", "eurrob1"⟩] (some 5) := by
    rw [dedup_hour_witness_eval]
    simp
  exact ⟨hmem, (dedup_reference_hour_keeps_closest _ 5 _ hmem).2.1⟩

/-- C2: in the GET /birds handler, a cached raw-observation set for the
key is served as is, for any outcome of the upstream fetches (so an
upstream failure is swallowed), and with no cached set an upstream failure
propagates; hence an error escapes only when no cached set exists. -/
theorem birds_cache_swallows_upstream_failure (c : CachedBirds)
    (ft fw : Except String (List RawObs)) (e : String) :
    fetchBirdsPayload (some c) ft fw = .ok c ∧
      fetchBirdsPayload none (.error e) fw = .error e :=
  ⟨rfl, rfl⟩

/-- C6: on a /birds cache miss, a tight fetch with fewer than 5 distinct
species codes makes the handler use the 10 km fetch result with radius 10,
while 5 or more distinct codes keep the tight result with radius 3 and
leave the result independent of the wide fetch (no second fetch). -/
theorem birds_radius_widening (rawT rawW : List RawObs)
    (fw fw' : Except String (List RawObs)) :
    fetchBirdsPayload none (.ok rawT) (.ok rawW) =
      .ok (if distinctSpeciesCount (transformObservations rawT) < 5
        then ⟨transformObservations rawW, 10⟩
        else ⟨transformObservations rawT, 3⟩) ∧
    (5 ≤ distinctSpeciesCount (transformObservations rawT) →
      fetchBirdsPayload none (.ok rawT) fw =
        fetchBirdsPayload none (.ok rawT) fw') := by
  constructor
  · unfold fetchBirdsPayload
    dsimp only
    by_cases h : distinctSpeciesCount (transformObservations rawT) < 5
    · rw [if_pos h, if_pos h]
    · rw [if_neg h, if_neg h]
  · intro h5
    have h : ¬ distinctSpeciesCount (transformObservations rawT) < 5 := by omega
    unfold fetchBirdsPayload
    dsimp only
    rw [if_neg h, if_neg h]

/-- Witness for C6 at a tight fetch with five distinct species codes:
the wide fetch outcome is irrelevant. -/
theorem birds_radius_widening_witness :
    5 ≤ distinctSpeciesCount (transformObservations
      [⟨"A", "a", some 1, some "2024-01-01 08:00", "P", "sp1"⟩,
        ⟨"B", "b", some 1, some "2024-01-01 08:05", "P", "sp2"⟩,
        ⟨"C", "c", some 1, some "2024-01-01 08:10", "P", "sp3"⟩,
        ⟨"D", "d", some 1, some "2024-01-01 08:15", "P", "sp4"⟩,
        ⟨"E", "e", some 1, some "2024-01-01 08:20", "P", "sp5"⟩]) ∧
    fetchBirdsPayload none (.ok
      [⟨"A", "a", some 1, some "2024-01-01 08:00", "P", "sp1"⟩,
        ⟨"B", "b", some 1, some "2024-01-01 08:05", "P", "sp2"⟩,
        ⟨"C", "c", some 1, some "2024-01-01 08:10", "P", "sp3"⟩,
        ⟨"D", "d", some 1, some "2024-01-01 08:15", "P", "sp4"⟩,
        ⟨"E", "e", some 1, some "2024-01-01 08:20", "P", "sp5"⟩]) (.error "boom") =
      fetchBirdsPayload none (.ok
        [⟨"A", "a", some 1, some "2024-01-01 08:00", "P", "sp1"⟩,
          ⟨"B", "b", some 1, some "2024-01-01 08:05", "P", "sp2"⟩,
          ⟨"C", "c", some 1, some "2024-01-01 08:10", "P", "sp3"⟩,
          ⟨"D", "d", some 1, some "2024-01-01 08:15", "P", "sp4"⟩,
          ⟨"E", "e", some 1, some "2024-01-01 08:20", "P", "sp5"⟩]) (.ok []) :=
  ⟨by decide, (birds_radius_widening _ [] (.error "boom") (.ok [])).2 (by decide)⟩

/-- C8 counterexample: the malformed timestamp "2024-01-01 noon" makes
`transformObservations` produce `obs_hour = NaN`, not null, refuting the
claim that any malformed timestamp yields null. -/
theorem transformObservations_nan_counterexample :
    (transformObservations [⟨"Mallard", "Anas platyrhynchos", some 1,
        some "2024-01-01 noon", "Park", "mallar3"⟩]).map (fun o => o.obs_hour) =
      [JSHour.nan] ∧ JSHour.nan ≠ JSHour.null := by
  constructor
  · decide
  · decide

/-- C8 amended: `transformObservations` never throws on the timestamp
field; a missing `observed_at`, one without a second space-separated
token, or one whose time token is empty yields `obs_hour = null`; a
nonempty time token is parsed with `parseInt` on its pre-colon text, which
yields NaN (not null) when that text is non-numeric. -/
theorem transformObservations_hour_amended (rawObs : List RawObs) (o : TransObs)
    (ho : o ∈ transformObservations rawObs) :
    o.obs_hour = parseObsHour o.observed_at ∧
      (o.observed_at = none → o.obs_hour = JSHour.null) ∧
      (∀ s, o.observed_at = some s →
        (splitOnChar ' ' s.toList)[1]? = none → o.obs_hour = JSHour.null) ∧
      (∀ s t, o.observed_at = some s →
        (splitOnChar ' ' s.toList)[1]? = some t → t.isEmpty = true →
        o.obs_hour = JSHour.null) ∧
      (∀ s t, o.observed_at = some s →
        (splitOnChar ' ' s.toList)[1]? = some t → t.isEmpty = false →
        o.obs_hour =
          (match jsParseInt (String.mk ((splitOnChar ':' t).headD [])) with
            | none => JSHour.nan
            | some n => JSHour.val n)) := by
  obtain ⟨r, hr, hro⟩ := List.mem_map.mp ho
  have h1 : o.obs_hour = parseObsHour o.observed_at := by
    rw [← hro]
  refine ⟨h1, ?_, ?_, ?_, ?_⟩
  · intro hnone
    rw [h1, hnone]
    rfl
  · intro s hs hsplit
    rw [h1, hs]
    unfold parseObsHour
    dsimp only
    rw [hsplit]
  · intro s t hs hsplit ht
    rw [h1, hs]
    unfold parseObsHour
    dsimp only
    rw [hsplit]
    simp [ht]
  · intro s t hs hsplit ht
    rw [h1, hs]
    unfold parseObsHour
    dsimp only
    rw [hsplit]
    simp [ht]

/-- Witness for the amended C8 at the NaN-producing record. -/
theorem transformObservations_hour_amended_witness :
    (⟨"Mallard", "Anas platyrhynchos", 1, some "2024-01-01 noon", JSHour.nan,
        "Park", "mallar3"⟩ : TransObs) ∈
      transformObservations [⟨"Mallard", "Anas platyrhynchos", some 1,
        some "2024-01-01 noon", "Park", "mallar3"⟩] ∧
    (⟨"Mallard", "Anas platyrhynchos", 1, some "2024-01-01 noon", JSHour.nan,
        "Park", "mallar3"⟩ : TransObs).obs_hour =
      parseObsHour (⟨"Mallard", "Anas platyrhynchos", 1,
        some "2024-01-01 noon", JSHour.nan, "Park", "mallar3"⟩ : TransObs).observed_at :=
  ⟨by decide, (transformObservations_hour_amended
    [⟨"Mallard", "Anas platyrhynchos", some 1, some "2024-01-01 noon", "Park",
      "mallar3"⟩]
    ⟨"Mallard", "Anas platyrhynchos", 1, some "2024-01-01 noon", JSHour.nan,
      "Park", "mallar3"⟩ (by decide)).1⟩

/-- C10: a /birds weather query parameter that parses to 0 or to NaN is
replaced by its default exactly as if absent; in particular temp_c=0 is
scored as 10 and cloud=0 as 50. -/
theorem birds_weather_param_zero_default (s : String) (d : Rat)
    (h : jsParseFloat s = none ∨ jsParseFloat s = some 0) :
    birdsWeatherParam (some s) d = birdsWeatherParam none d ∧
      birdsWeatherParam none d = d ∧
      (birdsActivityWeather (some "0") none none (some "0")).temp_c = 10 ∧
      (birdsActivityWeather (some "0") none none (some "0")).cloud_percent = 50 := by
  have hz : jsParseFloat "0" = some 0 := by
    have hp : jsParseFloatParts "0" = some ⟨1, 0, 0, 0⟩ := by decide
    simp [jsParseFloat, hp, jsFloatValue]
  refine ⟨?_, rfl, ?_, ?_⟩
  · rcases h with h | h
    · simp [birdsWeatherParam, h]
    · simp [birdsWeatherParam, h]
  · simp [birdsActivityWeather, birdsWeatherParam, hz]
  · simp [birdsActivityWeather, birdsWeatherParam, hz]

/-- Witness for C10 at the non-numeric parameter "abc". -/
theorem birds_weather_param_zero_default_witness :
    (jsParseFloat "abc" = none ∨ jsParseFloat "abc" = some 0) ∧
      birdsWeatherParam (some "abc") 7 = birdsWeatherParam none 7 :=
  ⟨Or.inl (by decide),
    (birds_weather_param_zero_default "abc" 7 (Or.inl (by decide))).1⟩
